import Mathlib

/-
Shallow embedding of the `httpreq` request/response library.

Go strings and byte slices are modelled as lists of byte values (`GoStr`);
Go maps iterated in the source are modelled as association lists; fallible
Go calls return `Except`; methods that mutate a receiver are modelled as
explicit state passing.  External collaborators that the repository only
calls (the URL parser, the media-type parser, the filesystem, the transport)
are modelled from the spec where noted, or passed in as function parameters.
-/

namespace Httpreq

deriving instance DecidableEq for Except

/-- Go strings and byte slices, modelled as lists of byte values. -/
abbrev GoStr := List Nat

/-- Byte string of an ASCII Lean string literal, for readable concrete inputs. -/
def gs (s : String) : GoStr := s.data.map Char.toNat

/-- Lower-case one ASCII byte, as Go `strings.ToLower` does per character. -/
def lowerByte (x : Nat) : Nat := if 65 ≤ x ∧ x ≤ 90 then x + 32 else x

/-- Model of Go `strings.ToLower` on ASCII byte strings. -/
def goToLower (s : GoStr) : GoStr := s.map lowerByte

/-- Split a byte string at the first occurrence of `c`: the part before and the
part after, with the delimiter dropped; `none` when `c` is absent. -/
def splitFirst (c : Nat) : GoStr → Option (GoStr × GoStr)
  | [] => none
  | x :: xs =>
    if x = c then some ([], xs)
    else
      match splitFirst c xs with
      | none => none
      | some (l, r) => some (x :: l, r)

/-- Split at the first occurrence of `c` when present, otherwise keep the whole
string on the left. -/
def splitOff (c : Nat) (s : GoStr) : GoStr × GoStr :=
  match splitFirst c s with
  | none => (s, [])
  | some p => p

/-- Structured URL as produced by the URL-parsing collaborator
(model of Go `net/url.URL`). -/
structure URL where
  scheme : GoStr
  host : GoStr
  path : GoStr
  rawQuery : GoStr
  fragment : GoStr
  deriving DecidableEq

/-- Split a leading `scheme://` off when present: the scheme and the
remaining host-and-path part. -/
def splitScheme (s : GoStr) : GoStr × GoStr :=
  match splitFirst 58 s with
  | some (sch, rest) =>
      if rest.take 2 = [47, 47] then (sch, rest.drop 2) else ([], s)
  | none => ([], s)

/-- Component split of an address, `scheme://host/path?query#fragment`,
without transforming any byte: the fragment is split off at the first `#`
(byte 35), the query at the first `?` (byte 63), then the scheme, and the
host reaches to the first `/` (byte 47), where the path starts. -/
def parseComponents (s : GoStr) : URL :=
  { scheme := (splitScheme (splitOff 63 (splitOff 35 s).1).1).1
    host := (splitOff 47 (splitScheme (splitOff 63 (splitOff 35 s).1).1).2).1
    path :=
      match splitFirst 47 (splitScheme (splitOff 63 (splitOff 35 s).1).1).2 with
      | none => []
      | some (_, r) => 47 :: r
    rawQuery := (splitOff 63 (splitOff 35 s).1).2
    fragment := (splitOff 35 s).2 }

/-- Modelled from the spec: the URL-parsing collaborator (`net/url.Parse` is not
part of this repository).  Per the spec it turns an address into a structured
URL and fails on malformed input; as in `net/url`, an address containing an
ASCII control character is rejected with an error that embeds the input,
and otherwise the address is split componentwise with no byte transformed. -/
def urlParse (address : GoStr) : Except GoStr URL :=
  if address.any (fun x => x < 32 || x == 127) then
    Except.error (gs "parse " ++ address ++ gs ": net/url: invalid control character in URL")
  else
    Except.ok (parseComponents address)

/-- Source `generateURL`: lower-case the address, then parse it; a parse
failure is returned as-is. -/
def generateURL (address : GoStr) : Except GoStr URL :=
  urlParse (goToLower address)

/-- Header store; Go `http.Header.Set` replaces the entry for the key. -/
def headerSet (h : List (GoStr × GoStr)) (k v : GoStr) : List (GoStr × GoStr) :=
  (h.filter (fun p => !(p.1 == k))) ++ [(k, v)]

/-- Header lookup; Go `http.Header.Get` returns the empty string for an
absent key. -/
def headerGet (h : List (GoStr × GoStr)) (k : GoStr) : GoStr :=
  match h.find? (fun p => p.1 == k) with
  | some p => p.2
  | none => []

/-- Model of Go `http.Request`: the fields the source reads or writes.
`body` is the installed body bytes; `getBody` is the replay factory, modelled
by the bytes a fresh reader from it would yield (`none` when the factory is
absent, i.e. `GetBody == nil`). -/
structure GoRequest where
  method : GoStr
  header : List (GoStr × GoStr)
  body : Option GoStr
  getBody : Option GoStr
  contentLength : Int
  url : Option URL
  deriving DecidableEq

/-- Model of `http.Transport`: the two fields the source configures.
The TLS client configuration is an opaque token; the proxy function is
modelled by the proxy URL it returns. -/
structure Transport where
  tlsClientConfig : Option Nat
  proxy : Option URL
  deriving DecidableEq

/-- Model of `http.Client`: transport plus timeout (nanoseconds). -/
structure GoClient where
  transport : Transport
  timeout : Int
  deriving DecidableEq

/-- Source `Req`: the request builder. `err` is the recorded first error. -/
structure Req where
  request : GoRequest
  client : GoClient
  address : GoStr
  err : Option GoStr
  deriving DecidableEq

/-- `http.DefaultTransport` as a fresh value: no TLS override, no proxy
configured by this layer. -/
def defaultTransport : Transport :=
  { tlsClientConfig := none, proxy := none }

/-- Source `New`: fresh builder with a GET request, empty headers, the default
transport and a 30-second timeout; the address is stored unvalidated. -/
def New (address : GoStr) : Req :=
  { request :=
      { method := gs "GET", header := [], body := none, getBody := none
        contentLength := 0, url := none }
    client := { transport := defaultTransport, timeout := 30000000000 }
    address := address
    err := none }

/-- Source `SetTLSConfig`: writes the TLS client configuration of the current
transport.  No check of `err`. -/
def SetTLSConfig (r : Req) (c : Nat) : Req :=
  { r with client :=
      { r.client with transport :=
          { r.client.transport with tlsClientConfig := some c } } }

/-- Source `SetTimeout`: writes the client timeout.  No check of `err`. -/
def SetTimeout (r : Req) (d : Int) : Req :=
  { r with client := { r.client with timeout := d } }

/-- Source `SetHeaders`: sets each given header when the map is non-empty.
No check of `err`. -/
def SetHeaders (r : Req) (headers : List (GoStr × GoStr)) : Req :=
  if 0 < headers.length then
    { r with request :=
        { r.request with
            header := headers.foldl (fun h kv => headerSet h kv.1 kv.2) r.request.header } }
  else r

/-- Source `SetContentType`: sets the Content-Type header.  No check of `err`. -/
def SetContentType (r : Req) (contentType : GoStr) : Req :=
  { r with request :=
      { r.request with header := headerSet r.request.header (gs "Content-Type") contentType } }

/-- Source `SetTransport`: replaces the client transport.  No check of `err`. -/
def SetTransport (r : Req) (t : Transport) : Req :=
  { r with client := { r.client with transport := t } }

/-- Source `SetBody`: installs the bytes as body, installs a replay factory
over the same bytes, and records the content length.  No check of `err`. -/
def SetBody (r : Req) (data : GoStr) : Req :=
  { r with request :=
      { r.request with
          body := some data
          getBody := some data
          contentLength := (data.length : Int) } }

/-- Source `SetBodyXML`: sets the XML content type. -/
def SetBodyXML (r : Req) : Req :=
  SetContentType r (gs "application/xml; charset=UTF-8")

/-- Source `SetProxy`: parses the proxy URL eagerly; on failure records the
parse error in `err` (without checking whether `err` was already set), on
success installs a brand-new transport whose only configured field is the
proxy. -/
def SetProxy (r : Req) (u : GoStr) : Req :=
  match urlParse u with
  | Except.error e => { r with err := some e }
  | Except.ok proxyURL =>
      { r with client :=
          { r.client with transport := { tlsClientConfig := none, proxy := some proxyURL } } }

/-- One part accumulated by the multipart writer: a field name, an optional
file name, and the part content. -/
structure Part where
  fieldName : GoStr
  fileName : Option GoStr
  content : GoStr
  deriving DecidableEq

/-- Byte encoding of one boundary-delimited multipart section. -/
def encodePart (boundary : GoStr) (p : Part) : GoStr :=
  gs "--" ++ boundary ++ gs "\r\n" ++
  gs "Content-Disposition: form-data; name=" ++ p.fieldName ++
  (match p.fileName with
   | some f => gs "; filename=" ++ f
   | none => []) ++
  gs "\r\n\r\n" ++ p.content ++ gs "\r\n"

/-- The byte buffer the multipart writer has accumulated once finalized:
one section per part, then the closing boundary. -/
def encodeParts (boundary : GoStr) (parts : List Part) : GoStr :=
  (parts.map (encodePart boundary)).flatten ++ gs "--" ++ boundary ++ gs "--\r\n"

/-- Filesystem open-and-read collaborator used by `createFormFile`
(`os.Open` plus the subsequent `io.Copy`): maps a path to its contents, or
to the I/O error that opening or reading it produces. -/
abbrev FileReader := GoStr → Except GoStr GoStr

/-- Source `createFormFile`: creates a named file part (writing the part
header to the in-memory buffer cannot fail), opens and streams the file at
`value` into it, and closes the source file; an open or copy failure is
returned to the caller. -/
def createFormFile (fs : FileReader) (parts : List Part) (key value : GoStr) :
    Except GoStr (List Part) :=
  match fs value with
  | Except.error e => Except.error e
  | Except.ok content =>
      Except.ok (parts ++ [{ fieldName := key, fileName := some value, content := content }])

/-- The inner loop of `SetForm` over one file map: each entry becomes a file
part; the first failure aborts the remaining entries of the map. -/
def addFileEntries (fs : FileReader) (parts : List Part) :
    List (GoStr × GoStr) → Except GoStr (List Part)
  | [] => Except.ok parts
  | (key, value) :: rest =>
      match createFormFile fs parts key value with
      | Except.error e => Except.error e
      | Except.ok parts1 => addFileEntries fs parts1 rest

/-- The outer loop of `SetForm` over the file maps; the first failure aborts
the remaining maps. -/
def addFormFiles (fs : FileReader) (parts : List Part) :
    List (List (GoStr × GoStr)) → Except GoStr (List Part)
  | [] => Except.ok parts
  | file :: rest =>
      match addFileEntries fs parts file with
      | Except.error e => Except.error e
      | Except.ok parts1 => addFormFiles fs parts1 rest

/-- `multipart.Writer.WriteField` on an in-memory buffer: appends a plain
field part.  Writing to a byte buffer cannot fail, so the result is always
`ok`; the `Except` shape mirrors the error check the source still performs. -/
def writeField (parts : List Part) (k v : GoStr) : Except GoStr (List Part) :=
  Except.ok (parts ++ [{ fieldName := k, fileName := none, content := v }])

/-- The inner loop of `SetForm` over one field map. -/
def addFieldEntries (parts : List Part) :
    List (GoStr × GoStr) → Except GoStr (List Part)
  | [] => Except.ok parts
  | (k, v) :: rest =>
      match writeField parts k v with
      | Except.error e => Except.error e
      | Except.ok parts1 => addFieldEntries parts1 rest

/-- The outer loop of `SetForm` over the field maps. -/
def addFormFields (parts : List Part) :
    List (List (GoStr × GoStr)) → Except GoStr (List Part)
  | [] => Except.ok parts
  | field :: rest =>
      match addFieldEntries parts field with
      | Except.error e => Except.error e
      | Except.ok parts1 => addFormFields parts1 rest

/-- Source `SetForm`: the one configuration call that short-circuits on a
recorded error.  Builds the multipart body from the file maps then the field
maps; the first failure is recorded in `err` and the partially written buffer
is discarded.  On success the finalized buffer (closing the writer on a byte
buffer cannot fail) becomes the body with a replay factory over the same
bytes, the content length, and the boundary-qualified Content-Type header.
The writer boundary, random in Go, is passed in explicitly. -/
def SetForm (fs : FileReader) (boundary : GoStr) (r : Req)
    (files fields : List (List (GoStr × GoStr))) : Req :=
  if r.err.isSome then r
  else
    match addFormFiles fs [] files with
    | Except.error e => { r with err := some e }
    | Except.ok parts1 =>
        match addFormFields parts1 fields with
        | Except.error e => { r with err := some e }
        | Except.ok parts2 =>
            let bodyBytes := encodeParts boundary parts2
            { r with request :=
                { r.request with
                    body := some bodyBytes
                    getBody := some bodyBytes
                    contentLength := (bodyBytes.length : Int)
                    header := headerSet r.request.header (gs "Content-Type")
                      (gs "multipart/form-data; boundary=" ++ boundary) } }

/-- Single-use response body stream.  `content` is what remains to read and
`closed` whether it was closed; `reads` and `closes` instrument the number of
read and close calls made on the stream (they have no Go counterpart and
exist to state single-read and single-close properties). -/
structure BodyStream where
  content : GoStr
  closed : Bool
  reads : Nat
  closes : Nat
  deriving DecidableEq

/-- Model of `http.Response`: status, headers, and the optional body stream. -/
structure HttpResp where
  statusCode : Nat
  header : List (GoStr × GoStr)
  body : Option BodyStream
  deriving DecidableEq

/-- Source `Response`: wraps the raw response and the cached body bytes
(`data`, empty until the first successful read). -/
structure Response where
  resp : Option HttpResp
  data : GoStr
  deriving DecidableEq

/-- Transport collaborator (`client.Do`): executes a fully configured request
and either fails or yields a raw response. -/
abbrev ClientDo := GoRequest → GoClient → Except GoStr HttpResp

/-- The invariant-violation error of `send`. -/
def getBodyErrMsg : GoStr :=
  gs "request.GetBody cannot be nil because it prevents redirection when content length>0"

/-- The tail of `send` after the error-chain and GetBody checks: set the
method, generate the URL (aborting on a parse failure, reported as-is),
execute through the transport collaborator (reported as-is on failure), and
wrap a success in a fresh `Response`. -/
def sendCore (doReq : ClientDo) (r : Req) (method : GoStr) : Except GoStr Response :=
  let req1 := { r.request with method := method }
  match generateURL r.address with
  | Except.error e => Except.error e
  | Except.ok u =>
      match doReq { req1 with url := some u } r.client with
      | Except.error e => Except.error e
      | Except.ok resp => Except.ok { resp := some resp, data := [] }

/-- Source `send`: return the recorded first error when present; fail when a
positive content length has no replay factory; otherwise dispatch. -/
def send (doReq : ClientDo) (r : Req) (method : GoStr) : Except GoStr Response :=
  match r.err with
  | some e => Except.error e
  | none =>
      if r.request.contentLength > 0 ∧ r.request.getBody = none then
        Except.error getBodyErrMsg
      else
        sendCore doReq r method

/-- Source `Get`. -/
def Get (doReq : ClientDo) (r : Req) : Except GoStr Response :=
  send doReq r (gs "GET")

/-- Source `Post`. -/
def Post (doReq : ClientDo) (r : Req) : Except GoStr Response :=
  send doReq r (gs "POST")

/-- Source `PostJSON`: sets the JSON content type, then posts. -/
def PostJSON (doReq : ClientDo) (r : Req) : Except GoStr Response :=
  send doReq (SetContentType r (gs "application/json")) (gs "POST")

/-- Source `Put`. -/
def Put (doReq : ClientDo) (r : Req) : Except GoStr Response :=
  send doReq r (gs "PUT")

/-- Source `Delete`. -/
def Delete (doReq : ClientDo) (r : Req) : Except GoStr Response :=
  send doReq r (gs "DELETE")

/-- `ioutil.ReadAll` on a single-use response stream: fails when the stream is
already closed, otherwise drains the remaining content. -/
def streamReadAll (s : BodyStream) : Except GoStr GoStr × BodyStream :=
  if s.closed then
    (Except.error (gs "http: read on closed response body"), { s with reads := s.reads + 1 })
  else
    (Except.ok s.content, { s with content := [], reads := s.reads + 1 })

/-- Closing the response stream.  The Go client body tolerates a double close
and returns nil, so the call never fails here; `closes` counts the calls
actually made on the underlying stream. -/
def streamClose (s : BodyStream) : Option GoStr × BodyStream :=
  (none, { s with closed := true, closes := s.closes + 1 })

/-- Write back the mutated stream into the view. -/
def setStream (r : Response) (s : BodyStream) : Response :=
  match r.resp with
  | none => r
  | some resp => { r with resp := some { resp with body := some s } }

/-- Source `readBody`: return the cache when its length is non-zero; fail on
an absent response or stream; otherwise read the whole stream, cache it, and
close the stream. -/
def readBody (r : Response) : Except GoStr GoStr × Response :=
  if r.data.length ≠ 0 then (Except.ok r.data, r)
  else
    match r.resp with
    | none => (Except.error (gs "http.Response is nil"), r)
    | some resp =>
        match resp.body with
        | none => (Except.error (gs "http.Response Body is nil"), r)
        | some s =>
            match streamReadAll s with
            | (Except.error e, s1) => (Except.error e, setStream r s1)
            | (Except.ok b, s1) =>
                let r1 := setStream { r with data := b } s1
                match streamClose s1 with
                | (some e, s2) => (Except.error e, setStream r1 s2)
                | (none, s2) => (Except.ok b, setStream r1 s2)

/-- Source `Body`: delegates to `readBody` (the extra branch only logs). -/
def Body (r : Response) : Except GoStr GoStr × Response :=
  readBody r

/-- Source `Close`: a safe no-op when the response or its stream is absent,
otherwise closes the underlying stream (without consulting the body cache). -/
def Close (r : Response) : Option GoStr × Response :=
  match r.resp with
  | none => (none, r)
  | some resp =>
      match resp.body with
      | none => (none, r)
      | some s =>
          match streamClose s with
          | (some e, s1) => (some e, setStream r s1)
          | (none, s1) => (none, setStream r s1)

/-- Source `Headers`: the header map, or absent when the view has no
underlying response. -/
def Headers (r : Response) : Option (List (GoStr × GoStr)) :=
  match r.resp with
  | none => none
  | some resp => some resp.header

/-- Source `StatusCode`: the status, or 0 when no underlying response. -/
def StatusCode (r : Response) : Nat :=
  match r.resp with
  | none => 0
  | some resp => resp.statusCode

/-- Filesystem state for the writing side: the files on disk and the paths on
which `os.Create` fails (missing directory, permission). -/
structure FS where
  files : List (GoStr × GoStr)
  failCreate : List GoStr
  deriving DecidableEq

/-- `os.Create`: fails on the designated paths, otherwise creates or
truncates the file. -/
def osCreate (fs : FS) (path : GoStr) : Except GoStr FS :=
  if fs.failCreate.contains path then
    Except.error (gs "open: no such file or directory")
  else
    Except.ok { fs with files := (fs.files.filter (fun p => !(p.1 == path))) ++ [(path, [])] }

/-- `io.Copy` to a created file followed by `Sync`: stores the bytes. -/
def fsWrite (fs : FS) (path : GoStr) (data : GoStr) : FS :=
  { fs with files := (fs.files.filter (fun p => !(p.1 == path))) ++ [(path, data)] }

/-- Read back a file from the filesystem state. -/
def fsRead (fs : FS) (path : GoStr) : Option GoStr :=
  match fs.files.find? (fun p => p.1 == path) with
  | some p => some p.2
  | none => none

/-- Source `SaveFile`: materialize the body (same caching rule as `Body`),
fail when it is empty before touching the filesystem, then create the file
and copy and flush the bytes. -/
def SaveFile (r : Response) (path : GoStr) (fs : FS) :
    Option GoStr × Response × FS :=
  match readBody r with
  | (Except.error e, r1) => (some e, r1, fs)
  | (Except.ok data, r1) =>
      if data.length = 0 then
        (some (gs "Downloaded file is empty. Can not save empty response to file " ++ path), r1, fs)
      else
        match osCreate fs path with
        | Except.error e => (some e, r1, fs)
        | Except.ok fs1 => (none, r1, fsWrite fs1 path data)

/-- A space or horizontal tab byte. -/
def isSpaceByte (x : Nat) : Bool := x == 32 || x == 9

/-- Trim surrounding spaces and tabs. -/
def trimSpace (s : GoStr) : GoStr :=
  ((s.dropWhile isSpaceByte).reverse.dropWhile isSpaceByte).reverse

/-- Split a byte string on every occurrence of `c`. -/
def splitAll (c : Nat) : GoStr → List GoStr
  | [] => [[]]
  | x :: xs =>
    if x = c then [] :: splitAll c xs
    else
      match splitAll c xs with
      | [] => [[x]]
      | l :: ls => (x :: l) :: ls

/-- A byte allowed in an HTTP token (letters, digits, and the usual token
specials). -/
def tokenByte (x : Nat) : Bool :=
  (48 ≤ x && x ≤ 57) || (65 ≤ x && x ≤ 90) || (97 ≤ x && x ≤ 122) ||
  [33, 35, 36, 37, 38, 42, 43, 45, 46, 94, 95, 124, 126].contains x

/-- A non-empty all-token-byte word. -/
def isToken (s : GoStr) : Bool :=
  !s.isEmpty && s.all tokenByte

/-- Strip one pair of surrounding double quotes when present. -/
def unquote (s : GoStr) : GoStr :=
  if 2 ≤ s.length && s.head? == some 34 && s.getLast? == some 34 then
    (s.drop 1).dropLast
  else s

/-- Parse the parameter chunks after the base media type: an empty chunk
(trailing semicolon) is skipped, otherwise `key=value` with a token key,
lower-cased, and an optionally quoted value. -/
def parseParams : List GoStr → Except GoStr (List (GoStr × GoStr))
  | [] => Except.ok []
  | chunk :: rest =>
      let c := trimSpace chunk
      if c.isEmpty then parseParams rest
      else
        match splitFirst 61 c with
        | none => Except.error (gs "mime: invalid media parameter")
        | some (k, v) =>
            let key := goToLower (trimSpace k)
            if !(isToken key) then Except.error (gs "mime: invalid media parameter")
            else
              match parseParams rest with
              | Except.error e => Except.error e
              | Except.ok params => Except.ok ((key, unquote (trimSpace v)) :: params)

/-- Modelled from the spec: the media-type parsing collaborator
(`mime.ParseMediaType` is not part of this repository).  Per the spec it
parses a Content-Disposition-style value into a base type and a parameter
mapping and fails on malformed syntax: the base must be a token or a
token-slash-token pair, parameter names are lower-cased, values may be
double-quoted, and a trailing semicolon with nothing after it is accepted. -/
def parseMediaType (v : GoStr) : Except GoStr (GoStr × List (GoStr × GoStr)) :=
  match splitAll 59 v with
  | [] => Except.error (gs "mime: no media type")
  | base :: chunks =>
      let b := goToLower (trimSpace base)
      let baseOk :=
        match splitFirst 47 b with
        | none => isToken b
        | some (t, sub) => isToken t && isToken sub
      if !baseOk then Except.error (gs "mime: no media type")
      else
        match parseParams chunks with
        | Except.error e => Except.error e
        | Except.ok params => Except.ok (b, params)

/-- Go map lookup with the zero-value default: `params[key]` is the empty
string when absent. -/
def paramsGet (params : List (GoStr × GoStr)) (k : GoStr) : GoStr :=
  match params.find? (fun p => p.1 == k) with
  | some p => p.2
  | none => []

/-- Model of `path.Join` for the shapes used here: joins the two components
with a slash when the directory is non-empty (duplicate-separator cleaning is
not modelled). -/
def pathJoin (dir name : GoStr) : GoStr :=
  if dir.isEmpty then name else dir ++ [47] ++ name

/-- Source `DownloadFile`: requires headers, reads the optional Content-Type,
requires a Content-Disposition with a filename parameter, joins the filename
onto the download directory and delegates to `SaveFile`; returns the content
type, the final path, and the error. -/
def DownloadFile (r : Response) (downloadDir : GoStr) (fs : FS) :
    (GoStr × GoStr × Option GoStr) × Response × FS :=
  match Headers r with
  | none => (([], [], some (gs "http response headers missing")), r, fs)
  | some headers =>
      let contentType := headerGet headers (gs "Content-Type")
      let disposition := headerGet headers (gs "Content-Disposition")
      if disposition.isEmpty then
        ((contentType, [], some (gs "content-disposition header missing")), r, fs)
      else
        match parseMediaType disposition with
        | Except.error e => ((contentType, [], some e), r, fs)
        | Except.ok (_, params) =>
            let fileName := paramsGet params (gs "filename")
            if fileName.isEmpty then
              ((contentType, [], some (gs "filename missing in content-disposition")), r, fs)
            else
              let filePath := pathJoin downloadDir fileName
              match SaveFile r filePath fs with
              | (some e, r1, fs1) => ((contentType, [], some e), r1, fs1)
              | (none, r1, fs1) => ((contentType, filePath, none), r1, fs1)

/-
Concrete collaborators and states used by witnesses and counterexamples.
-/

/-- A transport collaborator that always fails; results that hold for every
collaborator in particular hold for this one. -/
def noNet : ClientDo := fun _ _ => Except.error (gs "transport invoked")

/-- A builder carrying a recorded first error, reached through a failing
`SetProxy` (the proxy URL contains a control character). -/
def badReq : Req := SetProxy (New (gs "http://h")) (gs "bad\nurl")

/-- The parse error recorded in `badReq`. -/
def badReqErr : GoStr :=
  gs "parse " ++ gs "bad\nurl" ++ gs ": net/url: invalid control character in URL"

/-- A file reader on which every open fails. -/
def fsMissing : FileReader :=
  fun p => Except.error (gs "open " ++ p ++ gs ": no such file or directory")

/-- A fresh view over an unread, unclosed body stream. -/
def freshView (code : Nat) (hdr : List (GoStr × GoStr)) (content : GoStr) : Response :=
  { resp := some
      { statusCode := code, header := hdr,
        body := some { content := content, closed := false, reads := 0, closes := 0 } },
    data := [] }

/-- The view after one successful body read of `content`: cache filled,
stream drained, read once and closed once. -/
def readView (code : Nat) (hdr : List (GoStr × GoStr)) (content : GoStr) : Response :=
  { resp := some
      { statusCode := code, header := hdr,
        body := some { content := [], closed := true, reads := 1, closes := 1 } },
    data := content }

/-- Number of read calls made on the underlying stream of a view. -/
def streamReadsOf (r : Response) : Nat :=
  match r.resp with
  | none => 0
  | some resp =>
      match resp.body with
      | none => 0
      | some s => s.reads

/-- Number of close calls made on the underlying stream of a view. -/
def streamClosesOf (r : Response) : Nat :=
  match r.resp with
  | none => 0
  | some resp =>
      match resp.body with
      | none => 0
      | some s => s.closes

/-
Helper lemmas shared between the claim theorems.
-/

theorem send_of_err (doReq : ClientDo) (r : Req) (method : GoStr) (e : GoStr)
    (h : r.err = some e) : send doReq r method = Except.error e := by
  unfold send
  rw [h]

theorem SetContentType_err (r : Req) (ct : GoStr) : (SetContentType r ct).err = r.err := rfl

/-- CLAIM C1 — counterexample.  The claim is false on the code: on a builder
whose first-error field is non-nil, `SetHeaders` still changes the builder
state, and a second failing `SetProxy` overwrites the recorded first error
with the later parse error. -/
theorem config_after_error_cex :
    badReq.err.isSome = true ∧
    SetHeaders badReq [(gs "K", gs "V")] ≠ badReq ∧
    (SetProxy badReq (gs "x\ny")).err ≠ badReq.err := by
  decide

/-- CLAIM C1 (amended): of the configuration calls, only `SetForm` is guarded
by the recorded first error — with a non-nil first error it returns the
builder unchanged; the remaining configuration calls are unguarded and still
mutate state, and a later `SetProxy` parse failure overwrites the recorded
error (both exhibited by the counterexample). -/
theorem SetForm_noop_after_error (fs : FileReader) (boundary : GoStr) (r : Req)
    (files fields : List (List (GoStr × GoStr))) (h : r.err.isSome = true) :
    SetForm fs boundary r files fields = r := by
  unfold SetForm
  rw [h]
  rfl

/-- Witness for the amended C1 theorem at a concrete errored builder. -/
theorem SetForm_noop_after_error_witness :
    SetForm fsMissing (gs "b") badReq [[(gs "f", gs "/missing")]] [[(gs "k", gs "v")]] = badReq :=
  SetForm_noop_after_error fsMissing (gs "b") badReq
    [[(gs "f", gs "/missing")]] [[(gs "k", gs "v")]] (by decide)

/-- CLAIM C3: with a recorded first error, every verb method returns exactly
that error and no response.  The statement holds for every transport
collaborator `doReq` and for every builder, in particular for builders whose
address does not even parse — so neither URL parsing nor the transport
affects the outcome. -/
theorem verb_methods_return_first_error (doReq : ClientDo) (r : Req) (e : GoStr)
    (h : r.err = some e) :
    Get doReq r = Except.error e ∧
    Post doReq r = Except.error e ∧
    Put doReq r = Except.error e ∧
    Delete doReq r = Except.error e ∧
    PostJSON doReq r = Except.error e := by
  refine ⟨send_of_err _ _ _ _ h, send_of_err _ _ _ _ h, send_of_err _ _ _ _ h,
    send_of_err _ _ _ _ h, send_of_err _ _ _ _ ?_⟩
  rw [SetContentType_err]
  exact h

/-- Witness for C3 at a concrete errored builder and failing collaborator. -/
theorem verb_methods_return_first_error_witness :
    Get noNet badReq = Except.error badReqErr ∧
    Post noNet badReq = Except.error badReqErr ∧
    Put noNet badReq = Except.error badReqErr ∧
    Delete noNet badReq = Except.error badReqErr ∧
    PostJSON noNet badReq = Except.error badReqErr :=
  verb_methods_return_first_error noNet badReq badReqErr (by decide)

/-- CLAIM C2 — counterexample.  The claim is false on the code: the body
cache guard is a non-zero length check, so on a view over an empty body
stream the first `Body` call returns the empty bytes but the second call
re-reads the now-closed stream and errors (the two results are not
byte-identical and the stream is read twice); and on a non-empty view an
explicit `Close` after the body read closes the underlying stream a second
time, so the stream is not closed exactly once. -/
theorem body_caching_cex :
    (Body (freshView 200 [] [])).1 = Except.ok [] ∧
    (Body (Body (freshView 200 [] [])).2).1 =
      Except.error (gs "http: read on closed response body") ∧
    streamReadsOf (Body (Body (freshView 200 [] [])).2).2 = 2 ∧
    streamClosesOf (Close (Body (freshView 200 [] (gs "hi"))).2).2 = 2 := by
  decide

/-- CLAIM C2 (amended): for a view over a stream holding a non-empty byte
sequence, the first `Body` call returns the content, caches it, and reads and
closes the underlying stream exactly once; a second `Body` call returns the
same bytes from the cache with the state unchanged.  For an empty body the
length-based cache guard never engages and the stream is re-read, and an
explicit `Close` after a body read closes the underlying stream again (both
shown by the counterexample). -/
theorem body_caching_nonempty (code : Nat) (hdr : List (GoStr × GoStr)) (content : GoStr)
    (h : content ≠ []) :
    Body (freshView code hdr content) = (Except.ok content, readView code hdr content) ∧
    Body (readView code hdr content) = (Except.ok content, readView code hdr content) ∧
    streamReadsOf (readView code hdr content) = 1 ∧
    streamClosesOf (readView code hdr content) = 1 := by
  have hl : (readView code hdr content).data.length ≠ 0 := by
    simpa [readView, List.length_eq_zero] using h
  refine ⟨rfl, ?_, rfl, rfl⟩
  unfold Body readBody
  rw [if_pos hl]
  rfl

/-- Witness for the amended C2 theorem at a concrete two-byte body. -/
theorem body_caching_nonempty_witness :
    Body (freshView 200 [] (gs "hi")) = (Except.ok (gs "hi"), readView 200 [] (gs "hi")) ∧
    Body (readView 200 [] (gs "hi")) = (Except.ok (gs "hi"), readView 200 [] (gs "hi")) ∧
    streamReadsOf (readView 200 [] (gs "hi")) = 1 ∧
    streamClosesOf (readView 200 [] (gs "hi")) = 1 :=
  body_caching_nonempty 200 [] (gs "hi") (by decide)

/-- A builder with a positive content length and no replay factory, which no
configuration call of the source can produce but `send` must still reject. -/
def lenNoFactoryReq : Req :=
  { New (gs "http://h") with
      request := { (New (gs "http://h")).request with contentLength := 1 } }

/-- CLAIM C4: with no recorded error, a positive content length together with
an absent replay factory makes dispatch fail with the invariant-violation
error — for every transport collaborator, so no network call is attempted —
and conversely a zero content length passes the check: dispatch proceeds to
the rest of the pipeline (`sendCore`) and can never produce this failure
from the check. -/
theorem send_getBody_invariant (doReq : ClientDo) (r : Req) (method : GoStr)
    (h : r.err = none) :
    (r.request.contentLength > 0 → r.request.getBody = none →
        send doReq r method = Except.error getBodyErrMsg) ∧
    (r.request.contentLength = 0 →
        send doReq r method = sendCore doReq r method) := by
  constructor
  · intro h1 h2
    unfold send
    rw [h, if_pos ⟨h1, h2⟩]
  · intro h0
    unfold send
    rw [h, if_neg]
    rw [h0]
    simp

/-- Witness for C4: the violating builder fails, a fresh builder passes the
check. -/
theorem send_getBody_invariant_witness :
    send noNet lenNoFactoryReq (gs "GET") = Except.error getBodyErrMsg ∧
    send noNet (New (gs "http://h")) (gs "GET") =
      sendCore noNet (New (gs "http://h")) (gs "GET") :=
  ⟨(send_getBody_invariant noNet lenNoFactoryReq (gs "GET") rfl).1 (by decide) rfl,
   (send_getBody_invariant noNet (New (gs "http://h")) (gs "GET") rfl).2 rfl⟩

theorem addFileEntries_error_append (fs : FileReader) (parts : List Part)
    (entries more : List (GoStr × GoStr)) (e : GoStr)
    (h : addFileEntries fs parts entries = Except.error e) :
    addFileEntries fs parts (entries ++ more) = Except.error e := by
  induction entries generalizing parts with
  | nil => simp [addFileEntries] at h
  | cons kv rest ih =>
      obtain ⟨key, value⟩ := kv
      simp only [addFileEntries, List.cons_append] at h ⊢
      cases hc : createFormFile fs parts key value with
      | error e1 => rw [hc] at h; exact h
      | ok parts1 => rw [hc] at h; exact ih parts1 h

theorem addFormFiles_error_append (fs : FileReader) (parts : List Part)
    (files more : List (List (GoStr × GoStr))) (e : GoStr)
    (h : addFormFiles fs parts files = Except.error e) :
    addFormFiles fs parts (files ++ more) = Except.error e := by
  induction files generalizing parts with
  | nil => simp [addFormFiles] at h
  | cons file rest ih =>
      simp only [addFormFiles, List.cons_append] at h ⊢
      cases hf : addFileEntries fs parts file with
      | error e1 => rw [hf] at h; exact h
      | ok parts1 => rw [hf] at h; exact ih parts1 h

/-- CLAIM C5: when building the multipart form fails at a file entry, SetForm
records exactly that error as the first error and changes nothing else — the
result is the input builder with only `err` set, so no body, content length
or Content-Type is installed and the partial buffer is discarded; no later
entry is processed (the outcome ignores entries or maps appended after the
failing one); and a subsequent verb dispatch returns that error for every
transport collaborator. -/
theorem SetForm_failure_aborts (fs : FileReader) (boundary : GoStr) (r : Req)
    (files fields : List (List (GoStr × GoStr))) (e : GoStr)
    (hr : r.err = none) (hf : addFormFiles fs [] files = Except.error e) :
    SetForm fs boundary r files fields = { r with err := some e } ∧
    (∀ more, addFormFiles fs [] (files ++ more) = Except.error e) ∧
    (∀ parts entries moreEntries e1,
        addFileEntries fs parts entries = Except.error e1 →
        addFileEntries fs parts (entries ++ moreEntries) = Except.error e1) ∧
    (∀ doReq method,
        send doReq (SetForm fs boundary r files fields) method = Except.error e) := by
  have h1 : SetForm fs boundary r files fields = { r with err := some e } := by
    unfold SetForm
    rw [hr]
    simp [hf]
  refine ⟨h1, fun more => addFormFiles_error_append fs [] files more e hf,
    fun parts entries moreEntries e1 h =>
      addFileEntries_error_append fs parts entries moreEntries e1 h,
    fun doReq method => ?_⟩
  rw [h1]
  exact send_of_err doReq _ method e rfl

/-- Witness for C5: a single missing file aborts the form, ignores an
appended map, and poisons the following dispatch. -/
theorem SetForm_failure_aborts_witness :
    SetForm fsMissing (gs "b") (New (gs "http://h"))
        [[(gs "f", gs "/missing")]] [[(gs "k", gs "v")]] =
      { New (gs "http://h") with
          err := some (gs "open " ++ gs "/missing" ++ gs ": no such file or directory") } ∧
    addFormFiles fsMissing [] ([[(gs "f", gs "/missing")]] ++ [[(gs "g", gs "/also")]]) =
      Except.error (gs "open " ++ gs "/missing" ++ gs ": no such file or directory") ∧
    send noNet
        (SetForm fsMissing (gs "b") (New (gs "http://h"))
          [[(gs "f", gs "/missing")]] [[(gs "k", gs "v")]]) (gs "POST") =
      Except.error (gs "open " ++ gs "/missing" ++ gs ": no such file or directory") := by
  have H := SetForm_failure_aborts fsMissing (gs "b") (New (gs "http://h"))
    [[(gs "f", gs "/missing")]] [[(gs "k", gs "v")]]
    (gs "open " ++ gs "/missing" ++ gs ": no such file or directory") rfl (by decide)
  exact ⟨H.1, H.2.1 [[(gs "g", gs "/also")]], H.2.2.2 noNet (gs "POST")⟩

theorem find?_filter_self (l : List (GoStr × GoStr)) (path : GoStr) :
    (l.filter (fun p => !(p.1 == path))).find? (fun p => p.1 == path) = none := by
  rw [List.find?_eq_none]
  intro p hp
  have := List.of_mem_filter hp
  simpa using this

theorem fsRead_fsWrite (fs : FS) (path data : GoStr) :
    fsRead (fsWrite fs path data) path = some data := by
  unfold fsRead fsWrite
  rw [List.find?_append, find?_filter_self]
  simp

theorem isEmpty_false_of_ne {s : GoStr} (h : s ≠ []) : s.isEmpty = false := by
  cases s with
  | nil => exact absurd rfl h
  | cons a l => rfl

/-- CLAIM C7: SaveFile fails on a zero-length materialized body and leaves
the filesystem untouched, so no file is created; on a non-empty materialized
body, when file creation succeeds (copying to a created file and flushing
cannot fail in the model), it reports no error and the destination file
holds exactly the materialized bytes. -/
theorem SaveFile_spec (r : Response) (path : GoStr) (fs : FS) :
    (∀ r1, readBody r = (Except.ok [], r1) →
        SaveFile r path fs =
          (some (gs "Downloaded file is empty. Can not save empty response to file " ++ path),
           r1, fs)) ∧
    (∀ data r1, readBody r = (Except.ok data, r1) → data ≠ [] →
        fs.failCreate.contains path = false →
        (SaveFile r path fs).1 = none ∧
        fsRead (SaveFile r path fs).2.2 path = some data) := by
  constructor
  · intro r1 h
    unfold SaveFile
    rw [h]
    rfl
  · intro data r1 h hd hc
    have hl : ¬data.length = 0 := by simpa [List.length_eq_zero] using hd
    have hm : path ∉ fs.failCreate := by simpa using hc
    unfold SaveFile
    rw [h]
    simp [hl, osCreate, hm, fsRead_fsWrite]

/-- Witness for C7: an empty stream fails and writes nothing; a two-byte
stream is saved exactly. -/
theorem SaveFile_spec_witness :
    SaveFile (freshView 200 [] []) (gs "/tmp/out") ⟨[], []⟩ =
      (some (gs "Downloaded file is empty. Can not save empty response to file " ++ gs "/tmp/out"),
       readView 200 [] [], ⟨[], []⟩) ∧
    ((SaveFile (freshView 200 [] (gs "hi")) (gs "/tmp/out") ⟨[], []⟩).1 = none ∧
     fsRead (SaveFile (freshView 200 [] (gs "hi")) (gs "/tmp/out") ⟨[], []⟩).2.2 (gs "/tmp/out") =
       some (gs "hi")) :=
  ⟨(SaveFile_spec (freshView 200 [] []) (gs "/tmp/out") ⟨[], []⟩).1
      (readView 200 [] []) (by decide),
   (SaveFile_spec (freshView 200 [] (gs "hi")) (gs "/tmp/out") ⟨[], []⟩).2
      (gs "hi") (readView 200 [] (gs "hi")) (by decide) (by decide) rfl⟩

/-- CLAIM C6: DownloadFile on a view with headers fails with the
header-missing error and leaves the view and the filesystem untouched when
Content-Disposition is absent; fails with the filename-missing error when
the parsed disposition has no filename parameter; and on a disposition with
a non-empty filename it joins the filename onto the directory, delegates the
save there, and returns the Content-Type header value (the empty string when
that header is absent, with no error arising from the absence), the joined
path, and no error. -/
theorem DownloadFile_spec (r : Response) (resp : HttpResp) (downloadDir : GoStr) (fs : FS)
    (hr : r.resp = some resp) :
    (headerGet resp.header (gs "Content-Disposition") = [] →
        DownloadFile r downloadDir fs =
          ((headerGet resp.header (gs "Content-Type"), [],
            some (gs "content-disposition header missing")), r, fs)) ∧
    (∀ d t params, headerGet resp.header (gs "Content-Disposition") = d → d ≠ [] →
        parseMediaType d = Except.ok (t, params) →
        paramsGet params (gs "filename") = [] →
        DownloadFile r downloadDir fs =
          ((headerGet resp.header (gs "Content-Type"), [],
            some (gs "filename missing in content-disposition")), r, fs)) ∧
    (∀ d t params f r1 fs1, headerGet resp.header (gs "Content-Disposition") = d → d ≠ [] →
        parseMediaType d = Except.ok (t, params) →
        paramsGet params (gs "filename") = f → f ≠ [] →
        SaveFile r (pathJoin downloadDir f) fs = (none, r1, fs1) →
        DownloadFile r downloadDir fs =
          ((headerGet resp.header (gs "Content-Type"), pathJoin downloadDir f, none),
           r1, fs1)) := by
  refine ⟨?_, ?_, ?_⟩
  · intro hd
    simp [DownloadFile, Headers, hr, hd]
  · intro d t params hd hne hp hf
    simp [DownloadFile, Headers, hr, hd, isEmpty_false_of_ne hne, hp, hf]
  · intro d t params f r1 fs1 hd hne hp hf hfne hs
    simp [DownloadFile, Headers, hr, hd, isEmpty_false_of_ne hne, hp, hf,
      isEmpty_false_of_ne hfne, hs]

/-- A response carrying only a Content-Type header. -/
def ctOnlyResp : HttpResp :=
  { statusCode := 200, header := [(gs "Content-Type", gs "text/plain")], body := none }

/-- A response whose disposition has no filename parameter. -/
def noNameResp : HttpResp :=
  { statusCode := 200, header := [(gs "Content-Disposition", gs "attachment;")], body := none }

/-- A downloadable response: disposition with filename, four body bytes. -/
def dlResp : HttpResp :=
  { statusCode := 200
    header := [(gs "Content-Disposition", gs "attachment; filename=x.bin")]
    body := some { content := gs "data", closed := false, reads := 0, closes := 0 } }

/-- The downloadable view after its body was read and cached. -/
def dlViewRead : Response :=
  { resp := some
      { dlResp with body := some { content := [], closed := true, reads := 1, closes := 1 } }
    data := gs "data" }

/-- Witness for C6: missing disposition, disposition without filename, and a
successful download into an empty filesystem. -/
theorem DownloadFile_spec_witness :
    DownloadFile { resp := some ctOnlyResp, data := [] } (gs "/dl") ⟨[], []⟩ =
      ((headerGet ctOnlyResp.header (gs "Content-Type"), [],
        some (gs "content-disposition header missing")),
       { resp := some ctOnlyResp, data := [] }, ⟨[], []⟩) ∧
    DownloadFile { resp := some noNameResp, data := [] } (gs "/dl") ⟨[], []⟩ =
      ((headerGet noNameResp.header (gs "Content-Type"), [],
        some (gs "filename missing in content-disposition")),
       { resp := some noNameResp, data := [] }, ⟨[], []⟩) ∧
    DownloadFile { resp := some dlResp, data := [] } (gs "/dl") ⟨[], []⟩ =
      ((headerGet dlResp.header (gs "Content-Type"), pathJoin (gs "/dl") (gs "x.bin"), none),
       dlViewRead, ⟨[(pathJoin (gs "/dl") (gs "x.bin"), gs "data")], []⟩) := by
  refine ⟨(DownloadFile_spec { resp := some ctOnlyResp, data := [] } ctOnlyResp
      (gs "/dl") ⟨[], []⟩ rfl).1 (by decide),
    (DownloadFile_spec { resp := some noNameResp, data := [] } noNameResp
      (gs "/dl") ⟨[], []⟩ rfl).2.1 (gs "attachment;") (gs "attachment") []
      (by decide) (by decide) (by decide) rfl,
    (DownloadFile_spec { resp := some dlResp, data := [] } dlResp
      (gs "/dl") ⟨[], []⟩ rfl).2.2 (gs "attachment; filename=x.bin") (gs "attachment")
      [(gs "filename", gs "x.bin")] (gs "x.bin") dlViewRead
      ⟨[(pathJoin (gs "/dl") (gs "x.bin"), gs "data")], []⟩
      (by decide) (by decide) (by decide) (by decide) (by decide) (by decide)⟩

theorem SetForm_address_blind (fs : FileReader) (boundary : GoStr) (r : Req)
    (files fields : List (List (GoStr × GoStr))) (a : GoStr) :
    (SetForm fs boundary { r with address := a } files fields).err =
      (SetForm fs boundary r files fields).err := by
  by_cases hE : r.err.isSome
  · simp [SetForm, hE]
  · cases haf : addFormFiles fs [] files with
    | error e => simp [SetForm, hE, haf]
    | ok parts1 =>
        cases hff : addFormFields parts1 fields with
        | error e => simp [SetForm, hE, haf, hff]
        | ok parts2 => simp [SetForm, hE, haf, hff]

/-- CLAIM C8: the target address is never validated at construction or
configuration time — a fresh builder records no error whatever its address;
seven configuration calls never touch the recorded error, and the two that
can set it (SetProxy eagerly on its own argument, SetForm on its form
arguments) behave identically whatever the stored address is.  At dispatch
the address is first lower-cased and then parsed, and a parse failure aborts
dispatch with the parser error returned as-is and no response, for every
transport collaborator. -/
theorem address_checked_only_at_dispatch (r : Req) (a0 : GoStr)
    (hm : List (GoStr × GoStr)) (ct : GoStr) (d : Int) (c : Nat) (t : Transport)
    (bd u : GoStr) (fsr : FileReader) (boundary : GoStr)
    (files fields : List (List (GoStr × GoStr)))
    (doReq : ClientDo) (method : GoStr) (e : GoStr) :
    (New a0).err = none ∧
    ((SetHeaders r hm).err = r.err ∧ (SetContentType r ct).err = r.err ∧
     (SetTimeout r d).err = r.err ∧ (SetTLSConfig r c).err = r.err ∧
     (SetTransport r t).err = r.err ∧ (SetBody r bd).err = r.err ∧
     (SetBodyXML r).err = r.err) ∧
    (∀ a, (SetProxy { r with address := a } u).err = (SetProxy r u).err) ∧
    (∀ a, (SetForm fsr boundary { r with address := a } files fields).err =
        (SetForm fsr boundary r files fields).err) ∧
    generateURL r.address = urlParse (goToLower r.address) ∧
    (r.err = none → ¬(r.request.contentLength > 0 ∧ r.request.getBody = none) →
        urlParse (goToLower r.address) = Except.error e →
        send doReq r method = Except.error e) := by
  refine ⟨rfl, ⟨?_, rfl, rfl, rfl, rfl, rfl, rfl⟩, ?_, ?_, rfl, ?_⟩
  · unfold SetHeaders
    split <;> rfl
  · intro a
    unfold SetProxy
    cases urlParse u <;> rfl
  · intro a
    exact SetForm_address_blind fsr boundary r files fields a
  · intro h1 h2 h3
    unfold send
    rw [h1, if_neg h2]
    unfold sendCore generateURL
    rw [h3]

/-- Witness for C8 at a builder whose address holds a control character:
construction records no error, and dispatch surfaces the parse error. -/
theorem address_checked_only_at_dispatch_witness :
    (New (gs "http://h\nx")).err = none ∧
    send noNet (New (gs "http://h\nx")) (gs "GET") =
      Except.error (gs "parse http://h\nx: net/url: invalid control character in URL") := by
  have H := address_checked_only_at_dispatch (New (gs "http://h\nx")) (gs "http://h\nx")
    [] (gs "c") 0 0 defaultTransport (gs "b") (gs "u") fsMissing (gs "bd") [] []
    noNet (gs "GET")
    (gs "parse http://h\nx: net/url: invalid control character in URL")
  exact ⟨H.1, H.2.2.2.2.2 rfl (by decide) (by decide)⟩

/-- CLAIM C9: SetProxy with a parseable URL installs a brand-new transport on
the client whose only configured field is the proxy — its TLS slot is empty
and it replaces whatever transport was installed before, in particular one
configured through SetTLSConfig or SetTransport — while timeout, request
state and the recorded error are untouched. -/
theorem SetProxy_fresh_transport (r : Req) (u : GoStr) (pu : URL) (c : Nat) (t : Transport)
    (h : urlParse u = Except.ok pu) :
    (SetProxy r u).client.transport = { tlsClientConfig := none, proxy := some pu } ∧
    (SetProxy (SetTLSConfig r c) u).client.transport =
      { tlsClientConfig := none, proxy := some pu } ∧
    (SetProxy (SetTransport r t) u).client.transport =
      { tlsClientConfig := none, proxy := some pu } ∧
    (SetProxy r u).client.timeout = r.client.timeout ∧
    (SetProxy r u).request = r.request ∧
    (SetProxy r u).err = r.err := by
  unfold SetProxy SetTLSConfig SetTransport
  rw [h]
  exact ⟨rfl, rfl, rfl, rfl, rfl, rfl⟩

/-- Witness for C9 at a concrete proxy URL over a builder that had a TLS
configuration and a custom transport installed. -/
theorem SetProxy_fresh_transport_witness :
    (SetProxy (New (gs "http://h")) (gs "http://proxy.local")).client.transport =
      { tlsClientConfig := none,
        proxy := some { scheme := gs "http", host := gs "proxy.local", path := [],
                        rawQuery := [], fragment := [] } } ∧
    (SetProxy (SetTLSConfig (New (gs "http://h")) 7) (gs "http://proxy.local")).client.transport =
      { tlsClientConfig := none,
        proxy := some { scheme := gs "http", host := gs "proxy.local", path := [],
                        rawQuery := [], fragment := [] } } ∧
    (SetProxy (SetTransport (New (gs "http://h")) ⟨some 3, none⟩)
        (gs "http://proxy.local")).client.transport =
      { tlsClientConfig := none,
        proxy := some { scheme := gs "http", host := gs "proxy.local", path := [],
                        rawQuery := [], fragment := [] } } ∧
    (SetProxy (New (gs "http://h")) (gs "http://proxy.local")).client.timeout =
      (New (gs "http://h")).client.timeout ∧
    (SetProxy (New (gs "http://h")) (gs "http://proxy.local")).request =
      (New (gs "http://h")).request ∧
    (SetProxy (New (gs "http://h")) (gs "http://proxy.local")).err =
      (New (gs "http://h")).err :=
  SetProxy_fresh_transport (New (gs "http://h")) (gs "http://proxy.local")
    { scheme := gs "http", host := gs "proxy.local", path := [], rawQuery := [], fragment := [] }
    7 ⟨some 3, none⟩ (by decide)

theorem lowerByte_idem (x : Nat) : lowerByte (lowerByte x) = lowerByte x := by
  unfold lowerByte
  split
  · split <;> omega
  · rfl

theorem goToLower_idem (s : GoStr) : goToLower (goToLower s) = goToLower s := by
  unfold goToLower
  rw [List.map_map]
  exact List.map_congr_left (fun x _ => lowerByte_idem x)

theorem splitFirst_mem {c : Nat} {s l r : GoStr} (h : splitFirst c s = some (l, r)) :
    (∀ x ∈ l, x ∈ s) ∧ ∀ x ∈ r, x ∈ s := by
  induction s generalizing l r with
  | nil => simp [splitFirst] at h
  | cons a as ih =>
      by_cases hac : a = c
      · rw [splitFirst, if_pos hac] at h
        obtain ⟨rfl, rfl⟩ := Prod.mk.injEq .. ▸ Option.some.inj h
        exact ⟨by simp, fun x hx => List.mem_cons_of_mem a hx⟩
      · rw [splitFirst, if_neg hac] at h
        cases hsp : splitFirst c as with
        | none => rw [hsp] at h; simp at h
        | some p =>
            obtain ⟨l1, r1⟩ := p
            rw [hsp] at h
            simp only [Option.some.injEq, Prod.mk.injEq] at h
            obtain ⟨rfl, rfl⟩ := h
            obtain ⟨ihl, ihr⟩ := ih hsp
            constructor
            · intro x hx
              rcases List.mem_cons.mp hx with hx | hx
              · exact hx ▸ List.mem_cons_self a as
              · exact List.mem_cons_of_mem a (ihl x hx)
            · exact fun x hx => List.mem_cons_of_mem a (ihr x hx)

theorem splitOff_mem_left (c : Nat) (s : GoStr) : ∀ x ∈ (splitOff c s).1, x ∈ s := by
  unfold splitOff
  cases hsp : splitFirst c s with
  | none => simp
  | some p =>
      obtain ⟨l, r⟩ := p
      exact (splitFirst_mem hsp).1

theorem splitOff_mem_right (c : Nat) (s : GoStr) : ∀ x ∈ (splitOff c s).2, x ∈ s := by
  unfold splitOff
  cases hsp : splitFirst c s with
  | none => simp
  | some p =>
      obtain ⟨l, r⟩ := p
      exact (splitFirst_mem hsp).2

theorem splitScheme_mem_left (s : GoStr) : ∀ x ∈ (splitScheme s).1, x ∈ s := by
  intro x hx
  cases hsp : splitFirst 58 s with
  | none => simp [splitScheme, hsp] at hx
  | some p =>
      obtain ⟨sch, rest⟩ := p
      by_cases ht : rest.take 2 = [47, 47]
      · simp only [splitScheme, hsp, ht, if_true] at hx
        exact (splitFirst_mem hsp).1 x hx
      · simp [splitScheme, hsp, ht] at hx

theorem splitScheme_mem_right (s : GoStr) : ∀ x ∈ (splitScheme s).2, x ∈ s := by
  intro x hx
  cases hsp : splitFirst 58 s with
  | none => simpa [splitScheme, hsp] using hx
  | some p =>
      obtain ⟨sch, rest⟩ := p
      by_cases ht : rest.take 2 = [47, 47]
      · simp only [splitScheme, hsp, ht, if_true] at hx
        exact (splitFirst_mem hsp).2 x (List.drop_subset 2 rest hx)
      · simpa [splitScheme, hsp, ht] using hx

/-- All five URL components consist only of bytes fixed by lowering. -/
def urlAllLower (u : URL) : Bool :=
  (u.scheme ++ u.host ++ u.path ++ u.rawQuery ++ u.fragment).all (fun x => lowerByte x == x)

/-- A parse outcome whose successful URL, if any, is entirely lower-case. -/
def urlLowerOutcome : Except GoStr URL → Bool
  | Except.ok u => urlAllLower u
  | Except.error _ => true

theorem parseComponents_allLower {s : GoStr} (hs : ∀ x ∈ s, lowerByte x = x) :
    urlAllLower (parseComponents s) = true := by
  have hp1 : ∀ x ∈ (splitOff 35 s).1, x ∈ s := splitOff_mem_left 35 s
  have hfr : ∀ x ∈ (splitOff 35 s).2, x ∈ s := splitOff_mem_right 35 s
  have hp2 : ∀ x ∈ (splitOff 63 (splitOff 35 s).1).1, x ∈ s :=
    fun x hx => hp1 x (splitOff_mem_left 63 _ x hx)
  have hq : ∀ x ∈ (splitOff 63 (splitOff 35 s).1).2, x ∈ s :=
    fun x hx => hp1 x (splitOff_mem_right 63 _ x hx)
  have hsch : ∀ x ∈ (splitScheme (splitOff 63 (splitOff 35 s).1).1).1, x ∈ s :=
    fun x hx => hp2 x (splitScheme_mem_left _ x hx)
  have hhp : ∀ x ∈ (splitScheme (splitOff 63 (splitOff 35 s).1).1).2, x ∈ s :=
    fun x hx => hp2 x (splitScheme_mem_right _ x hx)
  have hhost : ∀ x ∈ (splitOff 47 (splitScheme (splitOff 63 (splitOff 35 s).1).1).2).1, x ∈ s :=
    fun x hx => hhp x (splitOff_mem_left 47 _ x hx)
  have hpath : ∀ x ∈ (parseComponents s).path, lowerByte x = x := by
    intro x hx
    unfold parseComponents at hx
    cases hsp : splitFirst 47 (splitScheme (splitOff 63 (splitOff 35 s).1).1).2 with
    | none => rw [hsp] at hx; simp at hx
    | some p =>
        obtain ⟨l, r⟩ := p
        rw [hsp] at hx
        rcases List.mem_cons.mp hx with hx | hx
        · subst hx; rfl
        · exact hs x (hhp x ((splitFirst_mem hsp).2 x hx))
  unfold urlAllLower
  rw [List.all_eq_true]
  intro x hx
  simp only [List.mem_append] at hx
  rw [beq_iff_eq]
  rcases hx with (((hx | hx) | hx) | hx) | hx
  · exact hs x (hsch x hx)
  · exact hs x (hhost x hx)
  · exact hpath x hx
  · exact hs x (hq x hx)
  · exact hs x (hfr x hx)

/-- CLAIM C10: URL generation is invariant under letter case of the input
address — generating from the address and from its lower-cased form yield
the same result, two addresses equal up to letter case generate the same
structured URL, and every component (scheme, host, path, query, fragment) of
a successfully generated URL consists only of lower-case bytes. -/
theorem generateURL_case_invariant (a b : GoStr) (h : goToLower a = goToLower b) :
    generateURL a = generateURL (goToLower a) ∧
    generateURL a = generateURL b ∧
    urlLowerOutcome (generateURL a) = true := by
  have hlow : ∀ x ∈ goToLower a, lowerByte x = x := by
    intro x hx
    obtain ⟨y, _, rfl⟩ := List.mem_map.mp hx
    exact lowerByte_idem y
  refine ⟨by unfold generateURL; rw [goToLower_idem], by unfold generateURL; rw [h], ?_⟩
  unfold generateURL urlParse
  split
  · rfl
  · exact parseComponents_allLower hlow

/-- Witness for C10 at a mixed-case address and its lower-case twin. -/
theorem generateURL_case_invariant_witness :
    generateURL (gs "HTTP://EXample.COM/PaTh?Q=1#Frag") =
      generateURL (goToLower (gs "HTTP://EXample.COM/PaTh?Q=1#Frag")) ∧
    generateURL (gs "HTTP://EXample.COM/PaTh?Q=1#Frag") =
      generateURL (gs "http://example.com/path?q=1#frag") ∧
    urlLowerOutcome (generateURL (gs "HTTP://EXample.COM/PaTh?Q=1#Frag")) = true :=
  generateURL_case_invariant (gs "HTTP://EXample.COM/PaTh?Q=1#Frag")
    (gs "http://example.com/path?q=1#frag") (by decide)

end Httpreq
